import Mathlib

/-!
Verification development for the ras-dapp repository.

The repository consists of a wallet-session hook (src/hooks/useWallet.ts)
and an attestation verification modal (the VerifyModal component), whose
core logic is: robust extraction of a schema string from heterogeneous
SDK return shapes, decoding of attestation records with fallbacks, and a
wallet connect / disconnect / network-switch state machine.

This file gives a shallow embedding of that logic and proves or refutes
the frozen claims about it.

Modelling conventions:
- JavaScript values flowing through the schema-lookup path are modelled by
  the inductive `JsVal` (strings, numbers, booleans, null/undefined, and
  plain objects as ordered key-value lists in property-enumeration order).
- JavaScript numeric fields that may be absent (undefined) are `Option Nat`.
- External collaborators that can reject are modelled by `Except`/sum types
  carrying the response the collaborator would deliver.
- External primitives the repository does not define (checksum
  normalisation by ethers.getAddress, locale date rendering) are modelled
  by stand-in functions; no claim depends on their output text.
- JavaScript string primitives (trim, startsWith, includes, Number(k) on
  property keys) are given structurally recursive embeddings over the
  character list of the string, so that every definition evaluates inside
  the kernel.
-/

/-- Embedding of JavaScript `String.prototype.trim`: drop whitespace from
both ends. -/
def jsTrim (s : String) : String :=
  ⟨((s.data.dropWhile Char.isWhitespace).reverse.dropWhile Char.isWhitespace).reverse⟩

/-- Embedding of JavaScript `String.prototype.startsWith`. -/
def jsStartsWith (s pre : String) : Bool :=
  pre.data.isPrefixOf s.data

/-- Occurrence of a pattern character list inside another character list. -/
def subOccurs (pat : List Char) : List Char → Bool
  | [] => pat.isEmpty
  | c :: t => pat.isPrefixOf (c :: t) || subOccurs pat t

/-- Embedding of JavaScript `String.prototype.includes`, also used for the
fixed-substring alternatives of the schema-marker regex in the source. -/
def strContains (s pat : String) : Bool :=
  subOccurs pat.data s.data

/-- Embedding of JavaScript `String.prototype.substring(0, n)`. -/
def jsTake (s : String) (n : Nat) : String :=
  ⟨s.data.take n⟩

/-- Embedding of `Number(k)` on a property key as used for array-like
index detection: a key made of decimal digits parses to that number (the
empty key parses to 0, as JavaScript `Number("")` does); anything else is
NaN, modelled as `none`. -/
def jsKeyToNat (k : String) : Option Nat :=
  if k.data.all Char.isDigit then
    some (k.data.foldl (fun n c => n * 10 + (c.toNat - '0'.toNat)) 0)
  else
    none

/-- A JavaScript value as it flows through the schema-lookup path: a
string, a number, a boolean, null/undefined, or a plain object given as
its enumerable (key, value) entries in property-enumeration order. -/
inductive JsVal where
  | str (s : String)
  | num (n : Nat)
  | bool (b : Bool)
  | nul
  | obj (fields : List (String × JsVal))

/-- JavaScript truthiness test used by the guards in the source
(`if (!schemaRecord) ...`): null/undefined, the empty string, 0 and
false are falsy. -/
def jsFalsy : JsVal → Bool
  | .nul => true
  | .str s => s == ""
  | .num n => n == 0
  | .bool b => !b
  | .obj _ => false

/-- The type-grammar marker test of `extractSchemaString`, from the source
regex over schema candidates: an integer/string/bytes keyword or the
punctuation of an open paren or a comma. -/
def schemaMarkerTest (s : String) : Bool :=
  strContains s "uint" || strContains s "int" || strContains s "string" ||
    strContains s "bytes" || strContains s "(" || strContains s ","

/-- A candidate value: a string of length greater than 8, per the source
condition `typeof v === "string" && v.length > 8`. -/
def longStr? : JsVal → Option String
  | .str s => if s.length > 8 then some s else none
  | _ => none

/-- The extra candidate the source pushes for a numeric-looking key `k`:
it re-reads `schemaRecord[Number(k)]` (which JavaScript canonicalises to
the property named by the decimal rendering of that number) and keeps it
when it is a string of length greater than 8. -/
def dupCandidate (fields : List (String × JsVal)) (k : String) : List String :=
  match jsKeyToNat k with
  | some n =>
    match fields.lookup (Nat.repr n) with
    | some vv =>
      match longStr? vv with
      | some s => [s]
      | none => []
    | none => []
  | none => []

/-- The candidates contributed by one enumerated entry: its own value when
it is a long string, then the numeric-key re-read duplicate. -/
def entryCandidates (fields : List (String × JsVal)) (kv : String × JsVal) :
    List String :=
  (match longStr? kv.2 with
   | some s => [s]
   | none => []) ++ dupCandidate fields kv.1

/-- The `candidateStrings` list built by the scan loop of
`extractSchemaString`, in enumeration order. -/
def candidateStringsAux (fields : List (String × JsVal)) :
    List (String × JsVal) → List String
  | [] => []
  | kv :: rest => entryCandidates fields kv ++ candidateStringsAux fields rest

/-- The `candidateStrings` array of the source. -/
def candidateStrings (fields : List (String × JsVal)) : List String :=
  candidateStringsAux fields fields

/-- Embedding of `extractSchemaString` from the VerifyModal component:
falsy input yields the empty string; a string is returned as is; an object
with a direct string `.schema` field returns that field; otherwise the
enumerable values are scanned for long strings, preferring the first one
containing a type-grammar marker, then the first candidate, then the empty
string.  Number and boolean inputs fall through to the final empty-string
return of the source. -/
def extractSchemaString (v : JsVal) : String :=
  if jsFalsy v then ""
  else
    match v with
    | .str s => s
    | .obj fields =>
      match fields.lookup "schema" with
      | some (.str s) => s
      | _ =>
        let cands := candidateStrings fields
        match cands.find? schemaMarkerTest with
        | some best => best
        | none => cands.headD ""
    | _ => ""

/-- Status of a decoded attestation, from the `AttestationResult` type of
the VerifyModal component.  The source type also declares `Expired` but no
code path produces it. -/
inductive AttStatus where
  | Valid
  | Revoked
  | Expired
deriving DecidableEq

/-- A raw attestation record as fetched from the attestation contract.
String identifiers that the source defends against being undefined are
`Option String`; numeric timestamps that may be absent are `Option Nat`. -/
structure Attestation where
  uid : String
  schema : String
  recipient : Option String
  attester : Option String
  data : Option String
  time : Option Nat
  revocationTime : Option Nat
deriving DecidableEq

/-- The normalized snapshot embedded in every result for debugging
fallback display (`_attestationSnapshot` in the source). -/
structure AttSnapshot where
  uid : String
  recipient : String
  attester : String
  time : Option Nat
  revocationTime : Option Nat
  data : Option String
deriving DecidableEq

/-- The `AttestationResult` record produced by the VerifyModal component.
`decodedData` is an ordered name-to-display-string map. -/
structure AttestationResult where
  uid : String
  schema : String
  recipient : String
  attester : String
  decodedData : List (String × String)
  rawDataHex : Option String
  issuedOn : String
  status : AttStatus
  snapshot : AttSnapshot
deriving DecidableEq

/-- Embedding of the `safeGetAddress` helper.  The external
`ethers.getAddress` checksum normalisation is modelled as the identity (no
claim depends on the checksummed text), so the helper returns its input
string, or the empty string for an absent address, exactly as the source
falls back to `addr ?? ""`. -/
def safeGetAddress (addr : Option String) : String :=
  addr.getD ""

/-- Stand-in for the browser `Date.toLocaleString` rendering of a
timestamp; the exact text is environment dependent and no claim depends
on it. -/
def toLocaleStringModel (n : Nat) : String :=
  Nat.repr n

/-- Embedding of `formatTimestamp`: zero (or NaN, unrepresentable here)
yields the sentinel, otherwise the locale rendering of the date. -/
def formatTimestamp (n : Nat) : String :=
  if n = 0 then "Unknown" else toLocaleStringModel n

/-- JavaScript truthiness of a possibly absent numeric value (`rev` in the
source status check): undefined and zero are falsy. -/
def jsTruthyNum : Option Nat → Bool
  | none => false
  | some n => n != 0

/-- The source condition `rev !== 0` on a possibly absent numeric value:
undefined is not strictly equal to 0, and a number differs from 0 when
non-zero. -/
def jsNeZeroNum : Option Nat → Bool
  | none => true
  | some n => n != 0

/-- The source condition uses `String(rev)`: undefined renders as the text
"undefined", a number as its decimal representation. -/
def jsStringOfNum : Option Nat → String
  | none => "undefined"
  | some n => Nat.repr n

/-- The raw-value rendering of the snapshot (`String(x ?? "")`). -/
def jsStringOrEmpty (x : Option String) : String :=
  x.getD ""

/-- The `_attestationSnapshot` built by both result paths. -/
def mkSnapshot (att : Attestation) : AttSnapshot :=
  { uid := att.uid
    recipient := jsStringOrEmpty att.recipient
    attester := jsStringOrEmpty att.attester
    time := att.time
    revocationTime := att.revocationTime
    data := att.data }

/-- Embedding of `decodeAttestation` from the VerifyModal component.  The
schema-lookup collaborator (`SchemaRegistry.getSchema`) is passed in as an
`Except`: a thrown lookup is caught by the source and leaves the schema
string empty.  The source declares `decodedData` as an empty record and
never populates it: the `safeDecodeWithSchema` helper is defined but not
invoked on any path, so the decoded field map of every result is empty. -/
def decodeAttestation (att : Attestation) (lookup : Except String JsVal) :
    AttestationResult :=
  let schemaString :=
    match lookup with
    | .ok record => extractSchemaString record
    | .error _ => ""
  let decodedData : List (String × String) := []
  let status :=
    if jsTruthyNum att.revocationTime && jsNeZeroNum att.revocationTime &&
        (jsStringOfNum att.revocationTime != "0") then
      AttStatus.Revoked
    else
      AttStatus.Valid
  { uid := att.uid
    schema := schemaString
    recipient := safeGetAddress att.recipient
    attester := safeGetAddress att.attester
    decodedData := decodedData
    rawDataHex := att.data
    issuedOn := formatTimestamp (att.time.getD 0)
    status := status
    snapshot := mkSnapshot att }

/-- The not-found sentinel recipient address (`ZERO_ADDRESS`). -/
def ZERO_ADDRESS : String :=
  "0x0000000000000000000000000000000000000000"

/-- JavaScript falsiness of a possibly absent string
(`!attestation.data`): undefined, null and the empty string are falsy. -/
def jsFalsyStr : Option String → Bool
  | none => true
  | some s => s == ""

/-- The fallback result built by `handleSearch` when the payload is absent
or the canonical no-data sentinel: empty schema, empty decoded fields, the
raw payload defaulted to the sentinel only when absent (`data ?? "0x"`),
and the status computed from `revocationTime` without the string check. -/
def emptyPayloadSnapshot (att : Attestation) : AttestationResult :=
  { uid := att.uid
    schema := ""
    recipient := safeGetAddress att.recipient
    attester := safeGetAddress att.attester
    decodedData := []
    rawDataHex := some (att.data.getD "0x")
    issuedOn := formatTimestamp (att.time.getD 0)
    status :=
      if jsTruthyNum att.revocationTime && jsNeZeroNum att.revocationTime then
        AttStatus.Revoked
      else
        AttStatus.Valid
    snapshot := mkSnapshot att }

/-- Response of the attestation-fetch collaborator (`eas.getAttestation`):
either a thrown error or a returned record. -/
inductive FetchResult where
  | throws (msg : String)
  | returns (att : Attestation)
deriving DecidableEq

/-- The observable outcome of one `handleSearch` invocation: the error
message and result list it stores, plus whether the network path (the
attestation fetch and anything after it) was entered at all. -/
structure SearchOutput where
  errorMessage : Option String
  results : Option (List AttestationResult)
  networkCalled : Bool
deriving DecidableEq

/-- Embedding of `handleSearch` from the VerifyModal component.  Inputs:
the raw search box text, the readiness flag (`provider present and not on
a wrong network`), the fetch collaborator response and the schema-lookup
collaborator response.  The catch branch around `decodeAttestation` in the
source is unreachable because `decodeAttestation` only throws on an absent
attestation object, which the preceding guards exclude, so it is not
modelled. -/
def handleSearch (searchInput : String) (ready : Bool)
    (fetch : FetchResult) (lookup : Except String JsVal) : SearchOutput :=
  let query := jsTrim searchInput
  if query = "" then
    { errorMessage := some "Please enter an Attestation UID (0x...)"
      results := none
      networkCalled := false }
  else if !jsStartsWith query "0x" || query.length != 66 then
    { errorMessage := some "Enter a valid 66-character Attestation UID starting with 0x."
      results := none
      networkCalled := false }
  else if !ready then
    { errorMessage := some "Connect wallet and ensure Rootstock Testnet is selected."
      results := none
      networkCalled := false }
  else
    match fetch with
    | .throws msg =>
      if strContains msg "BUFFER_OVERRUN" || strContains msg "buffer" then
        { errorMessage := some "Data corrupted: could not decode the attestation payload."
          results := none
          networkCalled := true }
      else
        { errorMessage := some ("Verification failed: " ++ jsTake msg 240)
          results := none
          networkCalled := true }
    | .returns att =>
      match att.recipient with
      | none =>
        { errorMessage := some "No attestation returned for this UID."
          results := none
          networkCalled := true }
      | some r =>
        if r = ZERO_ADDRESS then
          { errorMessage := some ("No attestation found with UID: " ++ query)
            results := none
            networkCalled := true }
        else if jsFalsyStr att.data || att.data == some "0x" then
          { errorMessage := some "Attestation contains no data payload — shown the attestation snapshot."
            results := some [emptyPayloadSnapshot att]
            networkCalled := true }
        else
          { errorMessage := none
            results := some [decodeAttestation att lookup]
            networkCalled := true }

/-- The native-currency descriptor in the chain configuration. -/
structure NativeCurrency where
  name : String
  symbol : String
  decimals : Nat
deriving DecidableEq

/-- The full chain descriptor (`RSK_TESTNET` in the source). -/
structure ChainConfig where
  chainId : String
  chainName : String
  nativeCurrency : NativeCurrency
  rpcUrls : List String
  blockExplorerUrls : List String
deriving DecidableEq

/-- The configured target chain descriptor from src/hooks/useWallet.ts. -/
def RSK_TESTNET : ChainConfig :=
  { chainId := "0x1f"
    chainName := "Rootstock Testnet"
    nativeCurrency := { name := "tRBTC", symbol := "tRBTC", decimals := 18 }
    rpcUrls := ["https://public-node.testnet.rsk.co"]
    blockExplorerUrls := ["https://explorer.testnet.rsk.co"] }

/-- The decimal target chain id (`TARGET_CHAIN_ID`). -/
def TARGET_CHAIN_ID : Nat := 31

/-- The wallet-session state held by the useWallet hook.  `lastChainId` is
the last network identifier reported by the provider (through a network
query or a chain-changed event); the hook reads it transiently rather than
storing it, and the spec data model clears it on disconnect, so it is
carried here as specification-level state. -/
structure WalletSt where
  address : Option String
  hasProvider : Bool
  hasSigner : Bool
  errorMessage : Option String
  isWrongNetwork : Bool
  lastChainId : Option Nat
deriving DecidableEq

/-- The initial (never connected) session state. -/
def initialWallet : WalletSt :=
  { address := none
    hasProvider := false
    hasSigner := false
    errorMessage := none
    isWrongNetwork := false
    lastChainId := none }

/-- What the provider does when `connectWallet` runs: no injected
provider, a rejection at some point of the handshake (account request,
signer or address retrieval — the source stores nothing before all three
succeed), a successful handshake whose follow-up network query throws, or
a fully successful handshake reporting the current chain. -/
inductive ConnResp where
  | noProvider
  | fail (msg : String)
  | okNetFail (addr : String)
  | ok (addr : String) (chain : Nat)
deriving DecidableEq

/-- Embedding of `connectWallet` (with `checkNetwork` inlined for the
successful case, as the source awaits it at the end): failures only store
an error message; a successful handshake stores address, provider and
signer, then evaluates the network flag against `TARGET_CHAIN_ID`; a
throwing network query is swallowed by `checkNetwork` and leaves the
network flag untouched. -/
def connectWallet (s : WalletSt) (r : ConnResp) : WalletSt :=
  match r with
  | .noProvider =>
    { s with errorMessage := some "MetaMask (or a compatible wallet) is not installed." }
  | .fail msg =>
    { s with errorMessage := some ("Wallet connection failed: " ++ msg) }
  | .okNetFail addr =>
    { s with
        address := some addr
        hasProvider := true
        hasSigner := true
        errorMessage := none }
  | .ok addr chain =>
    { s with
        address := some addr
        hasProvider := true
        hasSigner := true
        lastChainId := some chain
        isWrongNetwork := chain != TARGET_CHAIN_ID
        errorMessage :=
          if chain != TARGET_CHAIN_ID then
            some ("Please switch to " ++ RSK_TESTNET.chainName ++
              " (Chain ID: " ++ Nat.repr TARGET_CHAIN_ID ++ ")")
          else
            none }

/-- Embedding of `disconnectWallet`: every stored field is cleared (and
with it the last-known chain id, per the spec data model). -/
def disconnectWallet (_s : WalletSt) : WalletSt :=
  initialWallet

/-- A request `switchNetwork` issues to the provider. -/
inductive WalletRequest where
  | switchChain (chainIdHex : String)
  | addChain (descriptor : ChainConfig)
deriving DecidableEq

/-- What the provider does when `switchNetwork` runs: no injected
provider, success, the distinguished unrecognized-chain rejection (code
4902) followed by an add-chain attempt that succeeds or fails, or any
other rejection. -/
inductive SwitchResp where
  | noProvider
  | ok
  | unrecognizedAddOk
  | unrecognizedAddFail (msg : String)
  | otherErr (msg : String)
deriving DecidableEq

/-- Embedding of `switchNetwork` from src/hooks/useWallet.ts, returning
the state after the call and the list of provider requests issued, in
order.  A successful switch changes no stored state (the chain-changed
event arrives separately); the 4902 rejection triggers an add-chain
request with the full configured descriptor; every other rejection, and a
failing add, only store an error message. -/
def switchNetworkRun (s : WalletSt) (r : SwitchResp) :
    WalletSt × List WalletRequest :=
  match r with
  | .noProvider => (s, [])
  | .ok => (s, [.switchChain RSK_TESTNET.chainId])
  | .unrecognizedAddOk =>
    (s, [.switchChain RSK_TESTNET.chainId, .addChain RSK_TESTNET])
  | .unrecognizedAddFail msg =>
    ({ s with errorMessage := some ("Failed to add network: " ++ msg) },
      [.switchChain RSK_TESTNET.chainId, .addChain RSK_TESTNET])
  | .otherErr msg =>
    ({ s with errorMessage := some ("Network switch rejected or failed: " ++ msg) },
      [.switchChain RSK_TESTNET.chainId])

/-- Embedding of the chain-changed listener: a differing id only raises
the wrong-network flag; the target id clears it and, when a provider is
stored, re-runs the connection handshake (whose provider response is the
event parameter `r`). -/
def chainChangedHandler (s : WalletSt) (c : Nat) (r : ConnResp) : WalletSt :=
  if c != TARGET_CHAIN_ID then
    { s with isWrongNetwork := true, lastChainId := some c }
  else
    let s2 := { s with isWrongNetwork := false, lastChainId := some c }
    if s2.hasProvider then connectWallet s2 r else s2

/-- Embedding of the accounts-changed listener: an empty account list
behaves as disconnect, a non-empty one re-runs the handshake. -/
def accountsChangedHandler (s : WalletSt) (accounts : List String)
    (r : ConnResp) : WalletSt :=
  match accounts with
  | [] => disconnectWallet s
  | _ :: _ => connectWallet s r

/-- An externally observable event of the wallet session: a user-invoked
operation together with the provider response it receives, or an
out-of-band provider notification. -/
inductive Event where
  | connect (r : ConnResp)
  | disconnect
  | switch (r : SwitchResp)
  | chainChanged (c : Nat) (r : ConnResp)
  | accountsChanged (accounts : List String) (r : ConnResp)
deriving DecidableEq

/-- One step of the wallet session state machine. -/
def step (s : WalletSt) (e : Event) : WalletSt :=
  match e with
  | .connect r => connectWallet s r
  | .disconnect => disconnectWallet s
  | .switch r => (switchNetworkRun s r).1
  | .chainChanged c r => chainChangedHandler s c r
  | .accountsChanged accounts r => accountsChangedHandler s accounts r

/-- The state reached from the initial state by a sequence of events;
every reachable state is of this form. -/
def run (es : List Event) : WalletSt :=
  es.foldl step initialWallet

/-- The wrong-network formula claimed by the spec invariant: an account is
set and the last-known chain id differs from the target. -/
def specWrongNetwork (s : WalletSt) : Bool :=
  s.address.isSome &&
    (match s.lastChainId with
     | some c => c != TARGET_CHAIN_ID
     | none => false)

/-- The wrong-network formula the code actually maintains: some chain id
has been observed since the last disconnect and it differs from the
target. -/
def wrongOfChain : Option Nat → Bool
  | none => false
  | some c => c != TARGET_CHAIN_ID

/-- A concrete trace of cEventsWrong used below. -/
def cEventsWrong : List Event :=
  [Event.chainChanged 1 ConnResp.noProvider]

/-- A sample attestation with a zero revocation time. -/
def sampleRecordRevZero : Attestation :=
  { uid := "0xaa"
    schema := "0xs"
    recipient := some "0x1111"
    attester := some "0x2222"
    data := some "0x01"
    time := some 1
    revocationTime := some 0 }

/-- The same sample attestation, revoked at epoch second 1700000000. -/
def sampleRecordRevoked : Attestation :=
  { sampleRecordRevZero with revocationTime := some 1700000000 }

/-- The ABI encoding of the single `uint8` value 95, as the payload of the
end-to-end scenario with `score = 95`. -/
def scorePayloadHex : String :=
  "0x000000000000000000000000000000000000000000000000000000000000005f"

/-- The scenario record: a non-empty payload encoding `score = 95`, not
revoked. -/
def scenarioBRecord : Attestation :=
  { uid := "0xbb"
    schema := "0xschemaUid"
    recipient := some "0xRecipientAddr"
    attester := some "0xAttesterAddr"
    data := some scorePayloadHex
    time := some 1700000001
    revocationTime := some 0 }

/-- The schema-lookup response for the scenario: the registry returns a
record carrying the schema string `uint8 score`. -/
def scenarioBLookup : Except String JsVal :=
  Except.ok (JsVal.obj [("schema", JsVal.str "uint8 score")])

/-- A syntactically valid attestation identifier (66 characters, 0x
prefix). -/
def validUid : String :=
  "0x0000000000000000000000000000000000000000000000000000000000000001"

/-- An attestation whose payload is the empty string (present but
empty). -/
def emptyDataRecord : Attestation :=
  { uid := "0xaa"
    schema := "0xs"
    recipient := some "0xRecipientAddr"
    attester := some "0xAttesterAddr"
    data := some ""
    time := some 0
    revocationTime := some 0 }

/-- The same record with the payload absent (undefined). -/
def absentDataRecord : Attestation :=
  { emptyDataRecord with data := none }

/-- The candidate collection as the spec words it: scan the enumerable
values in order and collect every string value longer than 8 characters,
one candidate per entry. -/
def specScanCandidates : List (String × JsVal) → List String
  | [] => []
  | kv :: rest =>
    (match longStr? kv.2 with
     | some s => [s]
     | none => []) ++ specScanCandidates rest

/-- `DupOf seen xs ys` states that `ys` is `xs` with extra copies of
already emitted elements (elements of `seen` or of the emitted prefix of
`xs`) interleaved.  Such duplication changes neither the first match of a
predicate nor the head. -/
inductive DupOf : List String → List String → List String → Prop where
  | nil (seen : List String) : DupOf seen [] []
  | cons (seen : List String) (x : String) (xs ys : List String) :
      DupOf (x :: seen) xs ys → DupOf seen (x :: xs) (x :: ys)
  | dup (seen : List String) (xs ys : List String) (d : String) :
      d ∈ seen → DupOf seen xs ys → DupOf seen xs (d :: ys)

/-- The property-enumeration discipline of JavaScript objects that the
numeric-key re-read of `extractSchemaString` relies on: whenever an
enumerated key parses as a number, the value found under the canonical
decimal property name for that number occurs at or before the current
entry.  ECMA-262 enumerates integer-indexed property names first (in
ascending order), which guarantees this for every object an SDK can
hand over. -/
def backRefs (fields : List (String × JsVal)) : Prop :=
  ∀ (pre suf : List (String × JsVal)) (kv : String × JsVal),
    fields = pre ++ kv :: suf →
    ∀ (n : Nat) (vv : JsVal),
      jsKeyToNat kv.1 = some n →
      fields.lookup (Nat.repr n) = some vv →
      (vv ∈ pre.map Prod.snd ∨ vv = kv.2)

/-- A concrete array-like lookup result without a schema field. -/
def schemaScanSample : List (String × JsVal) :=
  [("uid", JsVal.str "0xdead"), ("definition", JsVal.str "uint256 value, address holder")]

lemma connectWallet_wrong_inv (s : WalletSt) (r : ConnResp)
    (h : s.isWrongNetwork = wrongOfChain s.lastChainId) :
    (connectWallet s r).isWrongNetwork = wrongOfChain (connectWallet s r).lastChainId := by
  cases r <;> simp [connectWallet, wrongOfChain] <;> exact h

lemma step_wrong_inv (s : WalletSt) (e : Event)
    (h : s.isWrongNetwork = wrongOfChain s.lastChainId) :
    (step s e).isWrongNetwork = wrongOfChain (step s e).lastChainId := by
  cases e with
  | connect r => exact connectWallet_wrong_inv s r h
  | disconnect => simp [step, disconnectWallet, initialWallet, wrongOfChain]
  | switch r => cases r <;> simp [step, switchNetworkRun] <;> exact h
  | chainChanged c r =>
    simp only [step, chainChangedHandler]
    cases hc : (c != TARGET_CHAIN_ID) with
    | true => simp [hc, wrongOfChain]
    | false =>
      by_cases hp : s.hasProvider = true
      · simp only [hc, Bool.false_eq_true, if_false, hp, if_true]
        exact connectWallet_wrong_inv _ r (by simp [wrongOfChain, hc])
      · simp only [Bool.not_eq_true] at hp
        simp [hc, hp, wrongOfChain]
  | accountsChanged accounts r =>
    cases accounts with
    | nil => simp [step, accountsChangedHandler, disconnectWallet, initialWallet, wrongOfChain]
    | cons a rest => exact connectWallet_wrong_inv s r h

lemma foldl_wrong_inv : ∀ (es : List Event) (s : WalletSt),
    s.isWrongNetwork = wrongOfChain s.lastChainId →
    (es.foldl step s).isWrongNetwork = wrongOfChain ((es.foldl step s).lastChainId) := by
  intro es
  induction es with
  | nil => intro s h; exact h
  | cons e rest ih => intro s h; exact ih (step s e) (step_wrong_inv s e h)

lemma run_wrong_inv (es : List Event) :
    (run es).isWrongNetwork = wrongOfChain (run es).lastChainId :=
  foldl_wrong_inv es initialWallet rfl

/-- C1 counterexample: from the initial (disconnected) state, one
chain-changed notification with id 1 sets the wrong-network flag while no
account is set, so the flag is not equivalent to the claimed formula
(account set and last-known chain id differing from the target). -/
theorem wallet_wrongNetwork_claim_counterexample :
    (run cEventsWrong).isWrongNetwork = true ∧
      specWrongNetwork (run cEventsWrong) = false ∧
      (run cEventsWrong).address = none := by
  exact ⟨rfl, rfl, rfl⟩

/-- C1 (amended): for every reachable state of the session, the
wrong-network flag is true exactly when some chain id has been observed
since the last disconnect and it differs from `TARGET_CHAIN_ID`; whether
an account is set does not enter into it. -/
theorem wallet_wrongNetwork_flag_characterization :
    ∀ (es : List Event),
      ((run es).isWrongNetwork = true ↔
        ∃ c, (run es).lastChainId = some c ∧ c ≠ TARGET_CHAIN_ID) := by
  intro es
  have h := run_wrong_inv es
  cases hl : (run es).lastChainId with
  | none => rw [hl] at h; simp [h, wrongOfChain]
  | some c =>
    rw [hl] at h
    simp only [h, wrongOfChain, bne_iff_ne, ne_eq]
    constructor
    · intro hc; exact ⟨c, rfl, hc⟩
    · rintro ⟨c', hc', hne⟩
      cases hc'
      exact hne

lemma chainChanged_preserves_dead (t : WalletSt) (c : Nat) (r : ConnResp)
    (ha : t.address = none) (hp : t.hasProvider = false) :
    (step t (Event.chainChanged c r)).address = none ∧
      (step t (Event.chainChanged c r)).hasProvider = false := by
  simp only [step, chainChangedHandler]
  by_cases hc : (c != TARGET_CHAIN_ID) = true
  · simp [hc, ha, hp]
  · simp [hc, hp, ha]

/-- C7: after `disconnect()`, any sequence of chain-changed notifications
(with any chain ids and any provider responses for the reconnect the
target-id branch would attempt) leaves the account unset: the handler only
re-runs the handshake when a provider is stored, and disconnect clears
it. -/
theorem wallet_disconnect_chainChanged_keeps_account_unset :
    ∀ (prior : List Event) (changes : List (Nat × ConnResp)),
      (changes.foldl (fun t p => step t (Event.chainChanged p.1 p.2))
          (step (run prior) Event.disconnect)).address = none := by
  intro prior changes
  have start : (step (run prior) Event.disconnect).address = none ∧
      (step (run prior) Event.disconnect).hasProvider = false := ⟨rfl, rfl⟩
  revert start
  generalize step (run prior) Event.disconnect = t
  intro start
  induction changes generalizing t with
  | nil => exact start.1
  | cons p rest ih =>
    exact ih _ (chainChanged_preserves_dead t p.1 p.2 start.1 start.2)

/-- C8: on the distinguished unrecognized-chain rejection (code 4902),
`switchNetwork` issues an add-chain request carrying the full configured
descriptor; every other rejection only stores the failure message, leaving
account, chain id and wrong-network flag unchanged; and no response ever
makes `switchNetwork` itself update the account or the chain id. -/
theorem switchNetwork_unrecognized_add_and_error_isolation :
    (∀ (s : WalletSt),
      switchNetworkRun s SwitchResp.unrecognizedAddOk =
        (s, [WalletRequest.switchChain RSK_TESTNET.chainId,
             WalletRequest.addChain RSK_TESTNET])) ∧
    (∀ (s : WalletSt) (m : String),
      (switchNetworkRun s (SwitchResp.unrecognizedAddFail m)).2 =
        [WalletRequest.switchChain RSK_TESTNET.chainId,
         WalletRequest.addChain RSK_TESTNET]) ∧
    (∀ (s : WalletSt) (m : String),
      switchNetworkRun s (SwitchResp.otherErr m) =
        ({ s with
            errorMessage := some ("Network switch rejected or failed: " ++ m) },
          [WalletRequest.switchChain RSK_TESTNET.chainId])) ∧
    (∀ (s : WalletSt) (r : SwitchResp),
      (switchNetworkRun s r).1.address = s.address ∧
        (switchNetworkRun s r).1.lastChainId = s.lastChainId ∧
        (switchNetworkRun s r).1.isWrongNetwork = s.isWrongNetwork) := by
  refine ⟨fun s => rfl, fun s m => rfl, fun s m => rfl, fun s r => ?_⟩
  cases r <;> exact ⟨rfl, rfl, rfl⟩

/-- C10: `connectWallet` is atomic on failure: with no injected provider,
or with a handshake that rejects at any point (the source stores nothing
before the account request, signer retrieval and address retrieval have
all succeeded), the address, provider and signer fields keep their prior
values and only the error message is updated. -/
theorem connectWallet_failure_atomicity :
    ∀ (s : WalletSt) (m : String),
      connectWallet s ConnResp.noProvider =
        { s with
            errorMessage := some "MetaMask (or a compatible wallet) is not installed." } ∧
      connectWallet s (ConnResp.fail m) =
        { s with
            errorMessage := some ("Wallet connection failed: " ++ m) } := by
  intro s m
  exact ⟨rfl, rfl⟩

lemma toDigitsCore_nonnil_length (f x : Nat) (hf : f ≠ 0) :
    1 ≤ (Nat.toDigitsCore 10 f x []).length := by
  cases f with
  | zero => exact absurd rfl hf
  | succ g =>
    simp only [Nat.toDigitsCore]
    by_cases hd : x / 10 = 0
    · simp [hd]
    · simp only [hd, if_false]
      rw [Nat.toDigitsCore_lens_eq]
      omega

lemma natRepr_ne_zero_str (n : Nat) (h : n ≠ 0) : Nat.repr n ≠ "0" := by
  intro he
  have hdata : Nat.toDigitsCore 10 (n + 1) n [] = ['0'] := by
    have := congrArg String.data he
    simpa [Nat.repr, Nat.toDigits, List.asString] using this
  by_cases hd : n / 10 = 0
  · have hn10 : n < 10 := (Nat.div_eq_zero_iff (by norm_num)).mp hd
    have h1 : 1 ≤ n := Nat.one_le_iff_ne_zero.mpr h
    have hmod : n % 10 = n := Nat.mod_eq_of_lt hn10
    simp only [Nat.toDigitsCore, hd, if_true, hmod] at hdata
    have hc : Nat.digitChar n = '0' := by
      simpa using hdata
    interval_cases n <;> revert hc <;> decide
  · simp only [Nat.toDigitsCore, hd, if_false] at hdata
    have hlen := congrArg List.length hdata
    rw [Nat.toDigitsCore_lens_eq] at hlen
    have hge := toDigitsCore_nonnil_length n (n / 10) h
    simp only [List.length_singleton] at hlen
    omega

lemma decodeAttestation_status_eq (att : Attestation)
    (lookup : Except String JsVal) :
    (decodeAttestation att lookup).status =
      (match att.revocationTime with
       | none => AttStatus.Valid
       | some n => if n = 0 then AttStatus.Valid else AttStatus.Revoked) := by
  cases hrev : att.revocationTime with
  | none => simp [decodeAttestation, jsTruthyNum, hrev]
  | some n =>
    by_cases hn : n = 0
    · subst hn
      simp [decodeAttestation, jsTruthyNum, hrev]
    · simp [decodeAttestation, jsTruthyNum, jsNeZeroNum, jsStringOfNum, hrev,
        bne_iff_ne, hn, natRepr_ne_zero_str n hn]

lemma emptyPayloadSnapshot_status_eq (att : Attestation) :
    (emptyPayloadSnapshot att).status =
      (match att.revocationTime with
       | none => AttStatus.Valid
       | some n => if n = 0 then AttStatus.Valid else AttStatus.Revoked) := by
  cases hrev : att.revocationTime with
  | none => simp [emptyPayloadSnapshot, jsTruthyNum, hrev]
  | some n =>
    by_cases hn : n = 0
    · subst hn
      simp [emptyPayloadSnapshot, jsTruthyNum, hrev]
    · simp [emptyPayloadSnapshot, jsTruthyNum, jsNeZeroNum, hrev, bne_iff_ne, hn]

/-- C6: on both result paths (the structured decode and the empty-payload
snapshot), the status is `Revoked` exactly when `revocationTime` is
present and non-zero, and `Valid` otherwise; in particular a zero
revocation time yields `Valid` and 1700000000 yields `Revoked`. -/
theorem attestation_status_revoked_iff :
    (∀ (att : Attestation) (lookup : Except String JsVal),
      ((decodeAttestation att lookup).status = AttStatus.Revoked ↔
        ∃ n, att.revocationTime = some n ∧ n ≠ 0) ∧
      ((decodeAttestation att lookup).status = AttStatus.Valid ↔
        ¬ ∃ n, att.revocationTime = some n ∧ n ≠ 0)) ∧
    (∀ (att : Attestation),
      (emptyPayloadSnapshot att).status = AttStatus.Revoked ↔
        ∃ n, att.revocationTime = some n ∧ n ≠ 0) ∧
    (decodeAttestation sampleRecordRevZero (Except.error "down")).status =
      AttStatus.Valid ∧
    (decodeAttestation sampleRecordRevoked (Except.error "down")).status =
      AttStatus.Revoked := by
  have key : ∀ (o : Option Nat),
      ((match o with
        | none => AttStatus.Valid
        | some n => if n = 0 then AttStatus.Valid else AttStatus.Revoked) =
          AttStatus.Revoked ↔ ∃ n, o = some n ∧ n ≠ 0) := by
    intro o
    cases o with
    | none => simp
    | some n =>
      by_cases hn : n = 0
      · subst hn; simp
      · simp [hn]
  refine ⟨fun att lookup => ⟨?_, ?_⟩, fun att => ?_, by decide, by decide⟩
  · rw [decodeAttestation_status_eq]
    exact key att.revocationTime
  · rw [decodeAttestation_status_eq]
    have := key att.revocationTime
    cases hrev : att.revocationTime with
    | none => simp
    | some n =>
      by_cases hn : n = 0
      · subst hn; simp
      · simp [hn]
  · rw [emptyPayloadSnapshot_status_eq]
    exact key att.revocationTime

lemma extractSchemaString_str_id (s : String) :
    extractSchemaString (JsVal.str s) = s := by
  by_cases h : s = ""
  · subst h; rfl
  · simp [extractSchemaString, jsFalsy, h]

/-- C4: `extractSchemaString` is total by construction (a structurally
recursive total function over every `JsVal` shape), idempotent (feeding
its own result back yields the same string), and returns exactly the
`.schema` field when that field is present with a string value. -/
theorem extractSchemaString_idempotent_and_schema_field :
    (∀ (v : JsVal),
      extractSchemaString (JsVal.str (extractSchemaString v)) =
        extractSchemaString v) ∧
    (∀ (fields : List (String × JsVal)) (s : String),
      fields.lookup "schema" = some (JsVal.str s) →
      extractSchemaString (JsVal.obj fields) = s) := by
  constructor
  · intro v
    exact extractSchemaString_str_id (extractSchemaString v)
  · intro fields s hl
    simp [extractSchemaString, jsFalsy, hl]

/-- Witness for C4 at a concrete schema-bearing object. -/
theorem extractSchemaString_idempotent_and_schema_field_witness :
    extractSchemaString (JsVal.obj [("schema", JsVal.str "uint8 score")]) =
      "uint8 score" :=
  extractSchemaString_idempotent_and_schema_field.2
    [("schema", JsVal.str "uint8 score")] "uint8 score" rfl

/-- C2 evaluation: `decodeAttestation` never populates the decoded field
map — the structured-decode helper (`safeDecodeWithSchema`) is defined in
the source but invoked on no path, so `decodedData` is declared empty and
left empty.  On the scenario record the schema string is found and the
status is `Valid`, yet the decoded fields are empty instead of the
claimed single entry `score = 95`. -/
theorem decodeAttestation_never_populates_fields :
    (∀ (att : Attestation) (lookup : Except String JsVal),
      (decodeAttestation att lookup).decodedData = []) ∧
    (decodeAttestation scenarioBRecord scenarioBLookup).schema =
      "uint8 score" ∧
    (decodeAttestation scenarioBRecord scenarioBLookup).status =
      AttStatus.Valid ∧
    (decodeAttestation scenarioBRecord scenarioBLookup).decodedData ≠
      [("score", "95")] := by
  refine ⟨fun att lookup => rfl, by decide, by decide, by decide⟩

/-- C9: a search input whose trimmed form is empty, lacks the 0x prefix,
or is not exactly 66 characters long is rejected with an error message
before the network path is entered: no result is produced, and the
outcome does not depend on the fetch or schema-lookup collaborators. -/
theorem handleSearch_malformed_query_rejected :
    ∀ (input : String) (ready : Bool) (f1 f2 : FetchResult)
      (l1 l2 : Except String JsVal),
      (jsTrim input = "" ∨ jsStartsWith (jsTrim input) "0x" = false ∨
        (jsTrim input).length ≠ 66) →
      ((handleSearch input ready f1 l1).networkCalled = false ∧
        (handleSearch input ready f1 l1).results = none ∧
        (∃ m, (handleSearch input ready f1 l1).errorMessage = some m) ∧
        handleSearch input ready f1 l1 = handleSearch input ready f2 l2) := by
  intro input ready f1 f2 l1 l2 h
  by_cases hq : jsTrim input = ""
  · simp only [handleSearch, hq, if_pos rfl]
    exact ⟨rfl, rfl, ⟨_, rfl⟩, rfl⟩
  · have hcond : (!jsStartsWith (jsTrim input) "0x" ||
        (jsTrim input).length != 66) = true := by
      rcases h with h1 | h2 | h3
      · exact absurd h1 hq
      · simp [h2]
      · simp [bne_iff_ne, h3]
    simp only [handleSearch, if_neg hq, hcond, if_pos rfl]
    exact ⟨rfl, rfl, ⟨_, rfl⟩, rfl⟩

/-- Witness for C9 at the empty input. -/
theorem handleSearch_malformed_query_rejected_witness :
    (handleSearch "" true (FetchResult.throws "boom") (Except.error "x")).networkCalled = false ∧
    (handleSearch "" true (FetchResult.throws "boom") (Except.error "x")).results = none ∧
    (∃ m, (handleSearch "" true (FetchResult.throws "boom") (Except.error "x")).errorMessage = some m) ∧
    handleSearch "" true (FetchResult.throws "boom") (Except.error "x") =
      handleSearch "" true (FetchResult.returns sampleRecordRevZero) (Except.ok JsVal.nul) :=
  handleSearch_malformed_query_rejected "" true
    (FetchResult.throws "boom") (FetchResult.returns sampleRecordRevZero)
    (Except.error "x") (Except.ok JsVal.nul) (Or.inl rfl)

/-- C3 counterexample: on a record whose payload is present but empty, the
empty-payload path is taken, yet the result carries `rawDataHex` equal to
the empty payload itself, not to the "0x" sentinel, because the source
only defaults an absent payload (`data ?? "0x"`). -/
theorem handleSearch_emptyPayload_counterexample :
    (handleSearch validUid true (FetchResult.returns emptyDataRecord)
        (Except.error "down")).results =
      some [emptyPayloadSnapshot emptyDataRecord] ∧
    (emptyPayloadSnapshot emptyDataRecord).rawDataHex = some "" ∧
    (emptyPayloadSnapshot emptyDataRecord).rawDataHex ≠ some "0x" := by
  refine ⟨by decide, rfl, by decide⟩

/-- C3 (amended): for every record whose payload is absent, empty or the
canonical "0x" sentinel, the search path returns the snapshot result with
empty fields, empty schema string, status derived from `revocationTime`
(see the status theorems), and `rawPayloadHex` equal to the payload when
present (hence "" for an empty payload) and to the sentinel when absent;
no schema lookup is attempted, so the outcome is independent of the
schema-lookup collaborator. -/
theorem handleSearch_emptyPayload_fallback :
    ∀ (input : String) (att : Attestation) (r : String)
      (l1 l2 : Except String JsVal),
      jsTrim input ≠ "" →
      jsStartsWith (jsTrim input) "0x" = true →
      (jsTrim input).length = 66 →
      att.recipient = some r →
      r ≠ ZERO_ADDRESS →
      (att.data = none ∨ att.data = some "" ∨ att.data = some "0x") →
      (handleSearch input true (FetchResult.returns att) l1 =
        { errorMessage := some "Attestation contains no data payload — shown the attestation snapshot."
          results := some [emptyPayloadSnapshot att]
          networkCalled := true } ∧
        (emptyPayloadSnapshot att).decodedData = [] ∧
        (emptyPayloadSnapshot att).schema = "" ∧
        (emptyPayloadSnapshot att).rawDataHex = some (att.data.getD "0x") ∧
        handleSearch input true (FetchResult.returns att) l1 =
          handleSearch input true (FetchResult.returns att) l2) := by
  intro input att r l1 l2 hq hs hl hr hrz hd
  have hcond : (!jsStartsWith (jsTrim input) "0x" ||
      (jsTrim input).length != 66) = false := by
    simp [hs, hl]
  have hdata : (jsFalsyStr att.data || att.data == some "0x") = true := by
    rcases hd with h | h | h <;> simp [jsFalsyStr, h]
  simp only [handleSearch, if_neg hq, hcond, Bool.false_eq_true, if_false,
    Bool.not_true, hr, if_neg hrz, hdata, if_pos rfl]
  exact ⟨rfl, rfl, rfl, rfl, rfl⟩

/-- Witness for the amended C3 at a concrete absent-payload record. -/
theorem handleSearch_emptyPayload_fallback_witness :
    handleSearch validUid true (FetchResult.returns absentDataRecord)
        (Except.error "down") =
      { errorMessage := some "Attestation contains no data payload — shown the attestation snapshot."
        results := some [emptyPayloadSnapshot absentDataRecord]
        networkCalled := true } ∧
    (emptyPayloadSnapshot absentDataRecord).decodedData = [] ∧
    (emptyPayloadSnapshot absentDataRecord).schema = "" ∧
    (emptyPayloadSnapshot absentDataRecord).rawDataHex =
      some (absentDataRecord.data.getD "0x") ∧
    handleSearch validUid true (FetchResult.returns absentDataRecord)
        (Except.error "down") =
      handleSearch validUid true (FetchResult.returns absentDataRecord)
        (Except.ok (JsVal.str "uint8 score")) :=
  handleSearch_emptyPayload_fallback validUid absentDataRecord
    "0xRecipientAddr" (Except.error "down") (Except.ok (JsVal.str "uint8 score"))
    (by decide) (by decide) (by decide) rfl (by decide) (Or.inl rfl)

lemma headD_eq_head_getD (l : List String) (d : String) :
    l.headD d = l.head?.getD d := by
  cases l <;> rfl

lemma dupOf_find_eq (p : String → Bool) :
    ∀ (seen xs ys : List String), DupOf seen xs ys →
      (∀ d ∈ seen, p d = false) → ys.find? p = xs.find? p := by
  intro seen xs ys h
  induction h with
  | nil seen => intro _; rfl
  | cons seen x xs ys h ih =>
    intro hseen
    by_cases hx : p x = true
    · rw [List.find?_cons_of_pos _ hx, List.find?_cons_of_pos _ hx]
    · have hx' : p x = false := by revert hx; cases p x <;> simp
      rw [List.find?_cons_of_neg _ (by simp [hx']),
        List.find?_cons_of_neg _ (by simp [hx'])]
      refine ih ?_
      intro d hd
      rcases List.mem_cons.mp hd with h1 | h2
      · subst h1; exact hx'
      · exact hseen d h2
  | dup seen xs ys d hd h ih =>
    intro hseen
    rw [List.find?_cons_of_neg _ (by simp [hseen d hd])]
    exact ih hseen

lemma dupOf_head_eq (xs ys : List String) (h : DupOf [] xs ys) :
    ys.head? = xs.head? := by
  cases h with
  | nil => rfl
  | cons => rfl
  | dup seen xs ys d hd h => exact absurd hd (List.not_mem_nil d)

lemma dupCandidate_cases (fields : List (String × JsVal)) (k : String) :
    dupCandidate fields k = [] ∨
      ∃ n vv d, jsKeyToNat k = some n ∧
        fields.lookup (Nat.repr n) = some vv ∧
        longStr? vv = some d ∧ dupCandidate fields k = [d] := by
  cases h1 : jsKeyToNat k with
  | none => exact Or.inl (by simp [dupCandidate, h1])
  | some n =>
    cases h2 : fields.lookup (Nat.repr n) with
    | none => exact Or.inl (by simp [dupCandidate, h1, h2])
    | some vv =>
      cases h3 : longStr? vv with
      | none => exact Or.inl (by simp [dupCandidate, h1, h2, h3])
      | some d =>
        exact Or.inr ⟨n, vv, d, rfl, h2, h3, by simp [dupCandidate, h1, h2, h3]⟩

lemma candDupOf_aux (fields : List (String × JsVal)) (hbr : backRefs fields) :
    ∀ (suf pre : List (String × JsVal)) (seen : List String),
      fields = pre ++ suf →
      (∀ (v : JsVal) (s : String), v ∈ pre.map Prod.snd →
        longStr? v = some s → s ∈ seen) →
      DupOf seen (specScanCandidates suf) (candidateStringsAux fields suf) := by
  intro suf
  induction suf with
  | nil => intro pre seen hsplit hseen; exact DupOf.nil seen
  | cons kv rest ih =>
    intro pre seen hsplit hseen
    have hsplit' : fields = (pre ++ [kv]) ++ rest := by
      rw [hsplit, List.append_assoc]
      rfl
    cases hlong : longStr? kv.2 with
    | some s =>
      have hseen' : ∀ (v : JsVal) (t : String), v ∈ (pre ++ [kv]).map Prod.snd →
          longStr? v = some t → t ∈ s :: seen := by
        intro v t hv ht
        rw [List.map_append] at hv
        rcases List.mem_append.mp hv with h1 | h2
        · exact List.mem_cons_of_mem _ (hseen v t h1 ht)
        · have hv2 : v = kv.2 := by simpa using h2
          subst hv2
          rw [hlong] at ht
          cases ht
          exact List.mem_cons_self _ _
      have hrest : DupOf (s :: seen) (specScanCandidates rest)
          (candidateStringsAux fields rest) := ih (pre ++ [kv]) (s :: seen) hsplit' hseen'
      rcases dupCandidate_cases fields kv.1 with hdc | ⟨n, vv, d, hkn, hlk, hlong2, hdc⟩
      · simp only [specScanCandidates, candidateStringsAux, entryCandidates,
          hlong, hdc, List.append_nil, List.singleton_append]
        exact DupOf.cons seen s _ _ hrest
      · have hmem : d ∈ s :: seen := by
          rcases hbr pre rest kv hsplit n vv hkn hlk with hm | hm
          · exact List.mem_cons_of_mem _ (hseen vv d hm hlong2)
          · subst hm
            rw [hlong] at hlong2
            cases hlong2
            exact List.mem_cons_self _ _
        simp only [specScanCandidates, candidateStringsAux, entryCandidates,
          hlong, hdc, List.singleton_append, List.cons_append, List.nil_append]
        exact DupOf.cons seen s _ _ (DupOf.dup _ _ _ d hmem hrest)
    | none =>
      have hseen' : ∀ (v : JsVal) (t : String), v ∈ (pre ++ [kv]).map Prod.snd →
          longStr? v = some t → t ∈ seen := by
        intro v t hv ht
        rw [List.map_append] at hv
        rcases List.mem_append.mp hv with h1 | h2
        · exact hseen v t h1 ht
        · have hv2 : v = kv.2 := by simpa using h2
          subst hv2
          rw [hlong] at ht
          cases ht
      have hrest : DupOf seen (specScanCandidates rest)
          (candidateStringsAux fields rest) := ih (pre ++ [kv]) seen hsplit' hseen'
      rcases dupCandidate_cases fields kv.1 with hdc | ⟨n, vv, d, hkn, hlk, hlong2, hdc⟩
      · simp only [specScanCandidates, candidateStringsAux, entryCandidates,
          hlong, hdc, List.append_nil, List.nil_append]
        exact hrest
      · have hmem : d ∈ seen := by
          rcases hbr pre rest kv hsplit n vv hkn hlk with hm | hm
          · exact hseen vv d hm hlong2
          · subst hm
            rw [hlong] at hlong2
            cases hlong2
        simp only [specScanCandidates, candidateStringsAux, entryCandidates,
          hlong, hdc, List.nil_append, List.singleton_append]
        exact DupOf.dup _ _ _ d hmem hrest

lemma candDupOf (fields : List (String × JsVal)) (hbr : backRefs fields) :
    DupOf [] (specScanCandidates fields) (candidateStrings fields) :=
  candDupOf_aux fields hbr fields [] [] rfl
    (by intro v s hv ht; simp at hv)

lemma backRefs_of_no_numeric_keys (fields : List (String × JsVal))
    (h : ∀ kv ∈ fields, jsKeyToNat kv.1 = none) : backRefs fields := by
  intro pre suf kv hsplit n vv hkn hlk
  have hm : kv ∈ fields := by
    rw [hsplit]
    exact List.mem_append.mpr (Or.inr (List.mem_cons_self _ _))
  rw [h kv hm] at hkn
  cases hkn

/-- C5: for every object without a direct string `.schema` field, and
whose entries respect the JavaScript property-enumeration discipline
captured by `backRefs` (integer-indexed properties are enumerated before
the entry that re-reads them), `extractSchemaString` returns the first
scanned string longer than 8 characters that contains a type-grammar
marker, else the first such string, else the empty string — even though
the loop pushes re-read duplicates for numeric keys, they never change
the first match or the head. -/
theorem extractSchemaString_scan_characterization :
    ∀ (fields : List (String × JsVal)),
      (∀ s, fields.lookup "schema" ≠ some (JsVal.str s)) →
      backRefs fields →
      extractSchemaString (JsVal.obj fields) =
        (match (specScanCandidates fields).find? schemaMarkerTest with
         | some best => best
         | none => (specScanCandidates fields).headD "") := by
  intro fields hschema hbr
  have hdup := candDupOf fields hbr
  have hfind : (candidateStrings fields).find? schemaMarkerTest =
      (specScanCandidates fields).find? schemaMarkerTest :=
    dupOf_find_eq schemaMarkerTest [] _ _ hdup
      (by intro d hd; exact absurd hd (List.not_mem_nil d))
  have hhead : (candidateStrings fields).head? = (specScanCandidates fields).head? :=
    dupOf_head_eq _ _ hdup
  have hscan :
      (match (candidateStrings fields).find? schemaMarkerTest with
       | some best => best
       | none => (candidateStrings fields).headD "") =
      (match (specScanCandidates fields).find? schemaMarkerTest with
       | some best => best
       | none => (specScanCandidates fields).headD "") := by
    rw [hfind]
    cases hf : (specScanCandidates fields).find? schemaMarkerTest with
    | some best => rfl
    | none =>
      simp only
      rw [headD_eq_head_getD, headD_eq_head_getD, hhead]
  cases hl : fields.lookup "schema" with
  | none =>
    simpa [extractSchemaString, jsFalsy, hl] using hscan
  | some v =>
    cases v with
    | str s => exact absurd hl (hschema s)
    | num n => simpa [extractSchemaString, jsFalsy, hl] using hscan
    | bool b => simpa [extractSchemaString, jsFalsy, hl] using hscan
    | nul => simpa [extractSchemaString, jsFalsy, hl] using hscan
    | obj inner => simpa [extractSchemaString, jsFalsy, hl] using hscan

/-- Witness for C5 at a concrete object. -/
theorem extractSchemaString_scan_characterization_witness :
    extractSchemaString (JsVal.obj schemaScanSample) =
      "uint256 value, address holder" := by
  have h := extractSchemaString_scan_characterization schemaScanSample
    (fun s hcontra => Option.noConfusion hcontra)
    (backRefs_of_no_numeric_keys _ (by decide))
  exact h.trans (by decide)
